import Mathlib

/-!
Verification of the capability-negotiation / adaptive-execution core of
`src/app.py` (Resume Customizer Streamlit application).

The Python source is shallowly embedded: module-level mutable globals and
`st.session_state` become explicit state values that are threaded through the
functions, outcomes of external collaborators (imports that may fail, probes
that may raise, `psutil` readings, ...) become fields of explicit environment
records, and functions that may return `None` return `Option` values.
-/

namespace App

/-! ## Session state (`st.session_state`) -/

/-- A session-state value, covering the shapes stored by `app.py`
(booleans such as `debug_mode` and `async_initialized`, strings, numbers,
lists and nested mappings such as `ui_preferences`, and Python `None`). -/
inductive Value where
  | vb (b : Bool)
  | vs (s : String)
  | vn (n : Nat)
  | vlist (l : List Value)
  | vmap (m : List (String × Value))
  | vnone

/-- Python truthiness of a stored session-state value, as used by
`st.session_state.get('debug_mode', False)` and
`st.session_state.get('async_initialized')` when they appear in `if`s. -/
def truthy : Value → Bool
  | .vb b => b
  | .vs s => !(s == "")
  | .vn n => !(n == 0)
  | .vlist l => !l.isEmpty
  | .vmap m => !m.isEmpty
  | .vnone => false

/-- `st.session_state`, modelled as an association list keyed by field name. -/
abbrev SessionState (α : Type) : Type := List (String × α)

/-- Dictionary lookup (`st.session_state[key]` / `.get(key)`). -/
def sget {α : Type} : SessionState α → String → Option α
  | [], _ => none
  | (k', v) :: rest, k => if k' = k then some v else sget rest k

/-- Python `key in st.session_state`. -/
def scontains {α : Type} (s : SessionState α) (k : String) : Bool :=
  (sget s k).isSome

/-- Dictionary assignment `st.session_state[key] = value`:
overwrite the existing binding or append a fresh one. -/
def sset {α : Type} : SessionState α → String → α → SessionState α
  | [], k, v => [(k, v)]
  | (k', v') :: rest, k, v =>
      if k' = k then (k, v) :: rest else (k', v') :: sset rest k v

/-- The inner loop of `initialize_session_state` (src/app.py lines 283-286):
for each `(key, value)` of the defaults, insert it only when the key is not
already present in the session state. -/
def apply_defaults {α : Type} : List (String × α) → SessionState α → SessionState α
  | [], s => s
  | (k, v) :: rest, s =>
      apply_defaults rest (if scontains s k then s else sset s k v)

/-- `initialize_session_state` (src/app.py lines 280-286): when the session
already carries the `'initialized'` marker the whole merge is skipped;
otherwise each default is inserted only for keys that are absent. -/
def initialize_session_state {α : Type}
    (defaults : List (String × α)) (s : SessionState α) : SessionState α :=
  if scontains s "initialized" then s else apply_defaults defaults s

/-- `get_default_session_state` (src/app.py lines 256-278). -/
def get_default_session_state : List (String × Value) :=
  [ ("initialized", .vb true)
  , ("resume_text", .vs "")
  , ("job_description", .vs "")
  , ("customized_resume", .vs "")
  , ("uploaded_files", .vlist [])
  , ("processing_status", .vmap [])
  , ("email_sent", .vb false)
  , ("bulk_results", .vlist [])
  , ("current_tab", .vs "Upload Resume")
  , ("performance_data", .vmap [])
  , ("error_history", .vlist [])
  , ("last_health_check", .vnone)
  , ("async_tasks", .vmap [])
  , ("ui_preferences", .vmap
      [ ("theme", .vs "light")
      , ("show_debug", .vb false)
      , ("auto_save", .vb true) ]) ]

/-! ## Requirements-manager capability resolution (src/app.py lines 192-244) -/

/-- The `RequirementsManager` instance as constructed by
`RequirementsManager(use_database=...)`. -/
structure RequirementsManager where
  use_database : Bool
deriving DecidableEq, Repr

/-- Outcome of one step of the database probe: the call either raises an
exception or returns with a success flag (`env_result['success']`,
`initialize_database()`, `initialize_database_schema()`). -/
inductive CallOutcome where
  | raises
  | returns (success : Bool)
deriving DecidableEq, Repr, Fintype

/-- Environment of one execution of `get_cached_requirements_manager`:
whether the `database` module imports, the outcome of each database
initialization step, and whether `requirements_integration.RequirementsManager`
itself imports. -/
structure DbEnv where
  database_import_ok : Bool
  setup_database_environment : CallOutcome
  initialize_database : CallOutcome
  initialize_database_schema : CallOutcome
  requirements_import_ok : Bool
deriving DecidableEq, Repr, Fintype

/-- The JSON-fallback arm repeated throughout `get_cached_requirements_manager`:
`from requirements_integration import RequirementsManager;
return RequirementsManager(use_database=False)`, which itself degrades to
`return None` when that import raises `ImportError`. -/
def json_fallback (e : DbEnv) : Option RequirementsManager :=
  if e.requirements_import_ok then some ⟨false⟩ else none

/-- `get_cached_requirements_manager` (src/app.py lines 192-244): run the
database probe steps in order; any step that raises or reports failure routes
to the JSON fallback; only when every step succeeds is
`RequirementsManager(use_database=True)` returned (and even then the
final import may fail, yielding `None`). -/
def get_cached_requirements_manager (e : DbEnv) : Option RequirementsManager :=
  if e.database_import_ok then
    match e.setup_database_environment with
    | .raises => json_fallback e
    | .returns false => json_fallback e
    | .returns true =>
        match e.initialize_database with
        | .raises => json_fallback e
        | .returns false => json_fallback e
        | .returns true =>
            match e.initialize_database_schema with
            | .raises => json_fallback e
            | .returns false => json_fallback e
            | .returns true =>
                if e.requirements_import_ok then some ⟨true⟩ else none
  else
    json_fallback e

/-- Every database probe step succeeded. -/
def db_probe_ok (e : DbEnv) : Bool :=
  e.database_import_ok
    && (e.setup_database_environment == .returns true)
    && (e.initialize_database == .returns true)
    && (e.initialize_database_schema == .returns true)

/-- Result of the manager-acquisition step at the top of
`render_requirements_tab` (src/app.py lines 413-419): if
`get_cached_requirements_manager()` returned `None`, render an error and
return from the tab; otherwise continue rendering with the manager. -/
inductive TabRender where
  | unavailableError
  | rendered (m : RequirementsManager)
deriving DecidableEq, Repr

/-- The manager-acquisition step of `render_requirements_tab`. -/
def render_requirements_tab (e : DbEnv) : TabRender :=
  match get_cached_requirements_manager e with
  | none => .unavailableError
  | some m => .rendered m

/-- A concrete environment in which the database environment-setup step
reports failure and `RequirementsManager` is not importable. -/
def dbenv_setup_failed_no_rm : DbEnv :=
  ⟨true, .returns false, .returns true, .returns true, false⟩

/-- A concrete environment in which no tier is available: neither the
`database` module nor `RequirementsManager` can be imported. -/
def dbenv_nothing_available : DbEnv :=
  ⟨false, .raises, .raises, .raises, false⟩

/-- A concrete environment in which every database step succeeds. -/
def dbenv_all_ok : DbEnv :=
  ⟨true, .returns true, .returns true, .returns true, true⟩

/-! ## Lazily-loaded singletons (src/app.py lines 156-169) -/

/-- The module-level lazy global `_ui_components` (src/app.py line 157):
`None` until the first construction, then the cached instance.  Instances are
identified by a numeric handle so that "the identical instance" is
expressible. -/
structure LazyGlobals where
  ui_components : Option Nat
deriving DecidableEq, Repr

/-- State of the `UIComponents()` constructor as an instance source: the next
fresh instance identity and how many times the constructor has run. -/
structure UIFactory where
  next_id : Nat
  calls : Nat
deriving DecidableEq, Repr

/-- `get_ui_components` (src/app.py lines 163-169): if the global is `None`,
invoke the `UIComponents()` factory and cache the result; always return the
cached instance. -/
def get_ui_components (g : LazyGlobals) (f : UIFactory) :
    Nat × LazyGlobals × UIFactory :=
  match g.ui_components with
  | some inst => (inst, g, f)
  | none => (f.next_id, ⟨some f.next_id⟩, ⟨f.next_id + 1, f.calls + 1⟩)

/-- `n` successive calls to `get_ui_components`, collecting the returned
instances and threading the global slot and the factory state. -/
def get_ui_components_iter : Nat → LazyGlobals → UIFactory →
    List Nat × LazyGlobals × UIFactory
  | 0, g, f => ([], g, f)
  | Nat.succ n, g, f =>
      let r := get_ui_components g f
      let rest := get_ui_components_iter n r.2.1 r.2.2
      (r.1 :: rest.1, rest.2)

/-! ## Health check (src/app.py lines 339-405) -/

/-- The health dictionary built by `check_application_health`. -/
structure HealthStatus where
  healthy : Bool
  issues : List String
  warnings : List String
deriving DecidableEq, Repr

/-- Outcome of `memory_optimizer.optimize_memory(force=True)`: the call raises,
or returns a dict whose `status` is `'completed'` (with the saved amount), or
returns any other status. -/
inductive OptimizeOutcome where
  | raises
  | completed (saved_mb : Nat)
  | attempted
deriving DecidableEq, Repr

/-- Outcome of the disk-space sub-check's `psutil` usage: the import fails
(silently passed), the call raises (warning appended), or a usage percentage is
read. -/
inductive DiskOutcome where
  | importError
  | raises (msg : String)
  | percent (p : Nat)
deriving DecidableEq, Repr

/-- Environment of one execution of `check_application_health`.  Percentages
are modelled as naturals (the source compares floats against the integral
thresholds 90 and 95). -/
structure HealthEnv where
  required_import_error : Option String
  performance_monitor_ok : Bool
  psutil_available : Bool
  memory_percent : Nat
  memory_optimizer_available : Bool
  optimize_memory : OptimizeOutcome
  disk : DiskOutcome
deriving DecidableEq, Repr

/-- The memory sub-check of `check_application_health`
(src/app.py lines 360-388): warnings only. -/
def memory_warnings (e : HealthEnv) : List String :=
  if e.psutil_available then
    if e.memory_percent > 90 then
      ["High memory usage: " ++ toString e.memory_percent ++ "%"]
        ++ (if e.memory_percent > 95 then
              ["⚠️ Critical memory usage - consider restarting the application"]
            else
              ["💡 Try processing fewer files at once or restart the application"])
        ++ (if e.memory_optimizer_available then
              match e.optimize_memory with
              | .completed saved =>
                  ["🧹 Memory cleanup performed - saved " ++ toString saved ++ "MB"]
              | .attempted => ["🧹 Memory cleanup attempted"]
              | .raises => ["⚠️ Memory cleanup failed - consider manual restart"]
            else
              ["🧹 Memory optimization not available"])
    else []
  else
    ["psutil not available - memory monitoring disabled"]

/-- The disk sub-check of `check_application_health`
(src/app.py lines 390-399): warnings only. -/
def disk_warnings : DiskOutcome → List String
  | .importError => []
  | .raises msg => ["Disk space check failed: " ++ msg]
  | .percent p =>
      if p > 90 then ["Low disk space: " ++ toString p ++ "% used"] else []

/-- `check_application_health` (src/app.py lines 342-405): a failing
required import (`streamlit`/`docx`/`io`) flips `healthy` to `False` and appends to
`issues` before any other sub-check runs; the performance-monitor, memory and
disk sub-checks only ever append to `warnings`. -/
def check_application_health (e : HealthEnv) : HealthStatus :=
  match e.required_import_error with
  | some msg =>
      { healthy := false
        issues := ["Missing required dependency: " ++ msg]
        warnings := [] }
  | none =>
      { healthy := true
        issues := []
        warnings :=
          (if e.performance_monitor_ok then []
           else ["Performance monitor not available"])
            ++ memory_warnings e ++ disk_warnings e.disk }

/-! ## Fallback error-handling decorator (src/app.py lines 80-89) -/

/-- The fallback `handle_errors` decorator defined when
`enhancements.error_handling_enhanced` is unavailable: it receives the
operation name, the severity and the keyword arguments (among them the
caller-configured `return_on_error`), but its wrapper catches every exception
and returns `None` — the `return_on_error` argument is captured by `**kwargs`
and never used. -/
def handle_errors {α β : Type} (operation_name : String) (severity : String)
    (return_on_error : Option β) (f : α → Except String β) : α → Option β :=
  fun a =>
    match f a with
    | .ok b => some b
    | .error _ => none

/-- The `return_on_error` value configured at the decoration site of
`check_application_health` (src/app.py line 340). -/
def health_check_return_on_error : HealthStatus :=
  { healthy := false, issues := ["Health check failed"], warnings := [] }

/-! ## TTL cache around the health check (src/app.py line 339) -/

/-- Modelled from the spec: the table behind `@st.cache_data(ttl=300)` —
Streamlit itself is an external collaborator, so its documented TTL-cache
behaviour is embedded here: at most one entry (the function takes no
arguments), holding the cached dictionary and the time it was computed. -/
structure HealthCache where
  entry : Option (HealthStatus × Nat)
deriving DecidableEq, Repr

/-- Modelled from the spec: one call to the `st.cache_data(ttl=300)`-wrapped
`check_application_health`.  Returns the result, the updated cache, and
whether the sub-checks were actually re-run.  Within the TTL window the cached
dictionary is returned unchanged; there is no argument that bypasses the
cache, because the Python function takes no parameters. -/
def cached_check_application_health (c : HealthCache) (now : Nat)
    (e : HealthEnv) : HealthStatus × HealthCache × Bool :=
  match c.entry with
  | some (v, t) =>
      if now - t < 300 then (v, c, false)
      else
        let v' := check_application_health e
        (v', ⟨some (v', now)⟩, true)
  | none =>
      let v := check_application_health e
      (v, ⟨some (v, now)⟩, true)

/-- A concrete snapshot sitting in the health cache. -/
def stale_snapshot : HealthStatus :=
  { healthy := true, issues := [], warnings := [] }

/-- A concrete health environment where a required dependency (`docx`) is
missing but no resource pressure exists. -/
def env_missing_docx : HealthEnv :=
  { required_import_error := some "No module named docx"
    performance_monitor_ok := true
    psutil_available := true
    memory_percent := 50
    memory_optimizer_available := true
    optimize_memory := .attempted
    disk := .percent 50 }

/-- A concrete health environment where `streamlit` fails to import. -/
def env_missing_streamlit : HealthEnv :=
  { required_import_error := some "No module named streamlit"
    performance_monitor_ok := false
    psutil_available := false
    memory_percent := 0
    memory_optimizer_available := false
    optimize_memory := .raises
    disk := .importError }

/-- A concrete healthy environment with memory pressure. -/
def env_memory_pressure : HealthEnv :=
  { required_import_error := none
    performance_monitor_ok := true
    psutil_available := true
    memory_percent := 97
    memory_optimizer_available := true
    optimize_memory := .completed 12
    disk := .percent 95 }

/-! ## `main`: health gate and async-init paths -/

/-- `st.session_state.get('debug_mode', False)` as used at src/app.py
line 524. -/
def debug_mode_enabled (session : SessionState Value) : Bool :=
  match sget session "debug_mode" with
  | some v => truthy v
  | none => false

/-- The health-check phase of `main` (src/app.py lines 523-528): only in debug
mode is the real `check_application_health` executed; otherwise the constant
fast verdict is used.  The boolean records whether the real check ran. -/
def main_health_phase (session : SessionState Value) (e : HealthEnv) :
    HealthStatus × Bool :=
  if debug_mode_enabled session then
    (check_application_health e, true)
  else
    ({ healthy := true, issues := [], warnings := [] }, false)

/-- The health gate of `main` (src/app.py lines 530-534): `main` proceeds into
the main flow exactly when the received verdict is healthy; otherwise it
renders the issues and returns. -/
def main_proceeds_past_health (session : SessionState Value) (e : HealthEnv) :
    Bool :=
  (main_health_phase session e).1.healthy

/-- The fallback `initialize_async_services` defined when
`infrastructure.async_processing.async_integration` is unavailable
(src/app.py lines 119-120): unconditionally `True`. -/
def initialize_async_services : Bool := true

/-- The 'Retry Async Init' button handler (src/app.py lines 1090-1093) on the
fallback path: `st.session_state.async_initialized = initialize_async_services()`. -/
def retry_async_init (session : SessionState Value) : SessionState Value :=
  sset session "async_initialized" (.vb initialize_async_services)

/-- The UI's high-performance indicator: `st.session_state.get('async_initialized')`
used truthily (src/app.py lines 619-622, 932-935, 1052). -/
def async_mode_active (session : SessionState Value) : Bool :=
  match sget session "async_initialized" with
  | some v => truthy v
  | none => false

/-! ## Bulk-processing progress (src/app.py lines 969-977) -/

/-- The sequence of values handed to `overall_progress.progress(...)` during
the bulk-processing loop: `(i + 1) / n` for `i = 0 .. n - 1`, followed by the
final `progress(1.0)` update. -/
def bulk_progress_updates (n : Nat) : List ℚ :=
  ((List.range n).map (fun (i : ℕ) => ((i : ℚ) + 1) / (n : ℚ))) ++ [1]

/-! ## Basic lemmas about the session-state dictionary -/

theorem sget_sset_self {α : Type} (s : SessionState α) (k : String) (v : α) :
    sget (sset s k v) k = some v := by
  induction s with
  | nil => simp [sset, sget]
  | cons hd tl ih =>
      obtain ⟨k', v'⟩ := hd
      by_cases h : k' = k
      · simp [sset, h, sget]
      · simp [sset, h, sget, ih]

theorem sget_sset_ne {α : Type} (s : SessionState α) {k' k : String} (v : α)
    (h : k' ≠ k) : sget (sset s k' v) k = sget s k := by
  induction s with
  | nil => simp [sset, sget, h]
  | cons hd tl ih =>
      obtain ⟨k'', v''⟩ := hd
      by_cases h2 : k'' = k'
      · subst h2
        simp [sset, sget, h]
      · simp [sset, h2, sget, ih]

theorem scontains_sset {α : Type} (s : SessionState α) (k' k : String) (v : α)
    (h : scontains s k = true) : scontains (sset s k' v) k = true := by
  by_cases hk : k' = k
  · subst hk; simp [scontains, sget_sset_self]
  · simpa [scontains, sget_sset_ne s v hk] using h

/-- Keys already present in the session survive the default merge untouched. -/
theorem apply_defaults_preserves {α : Type} (d : List (String × α)) :
    ∀ (s : SessionState α) (k : String), scontains s k = true →
      sget (apply_defaults d s) k = sget s k := by
  induction d with
  | nil => intro s k _; rfl
  | cons hd tl ih =>
      intro s k hk
      obtain ⟨k', v'⟩ := hd
      by_cases hc : scontains s k' = true
      · simpa [apply_defaults, hc] using ih s k hk
      · have hne : k' ≠ k := by
          intro h; rw [h] at hc; exact hc hk
        have h1 : sget (apply_defaults tl (sset s k' v')) k
            = sget (sset s k' v') k :=
          ih (sset s k' v') k (scontains_sset s k' k v' hk)
        simp only [apply_defaults, Bool.not_eq_true] at *
        rw [if_neg (by simp [hc]), h1, sget_sset_ne s v' hne]

/-! ## C1: tier ordering of the requirements-storage capability -/

/-- C1 (amended): provided the `RequirementsManager` implementation can be
imported, `get_cached_requirements_manager` returns
`RequirementsManager(use_database=False)` whenever any database probe step
(environment setup, connection initialization, or schema initialization)
fails or raises, and returns `RequirementsManager(use_database=True)` exactly
when every database step succeeds. -/
theorem c1_db_tier_ordering (e : DbEnv) (h : e.requirements_import_ok = true) :
    get_cached_requirements_manager e = some ⟨db_probe_ok e⟩ := by
  revert h
  revert e
  decide

/-- C1 witness: in the environment where every database step succeeds, the
resolver returns the database-backed manager. -/
theorem c1_db_tier_ordering_witness :
    get_cached_requirements_manager dbenv_all_ok = some ⟨db_probe_ok dbenv_all_ok⟩ :=
  c1_db_tier_ordering dbenv_all_ok rfl

/-- C1 counterexample to the claim as stated: in the concrete execution where
the database environment-setup step reports failure but `RequirementsManager`
itself cannot be imported, the resolver returns `None`, not a manager with
`use_database=False`. -/
theorem c1_db_tier_ordering_counterexample :
    dbenv_setup_failed_no_rm.setup_database_environment = .returns false ∧
    get_cached_requirements_manager dbenv_setup_failed_no_rm ≠ some ⟨false⟩ ∧
    get_cached_requirements_manager dbenv_setup_failed_no_rm = none := by
  decide

/-! ## C2: at-most-once construction of lazy singletons -/

/-- Once the `_ui_components` global holds an instance, every further call
returns it and neither the global nor the factory state changes. -/
theorem get_ui_components_iter_filled (n : Nat) (v : Nat) (f : UIFactory) :
    get_ui_components_iter n ⟨some v⟩ f = (List.replicate n v, ⟨some v⟩, f) := by
  induction n generalizing f with
  | zero => rfl
  | succ m ih =>
      simp [get_ui_components_iter, get_ui_components, ih, List.replicate]

/-- C2: calling `get_ui_components` N times (N ≥ 1) invokes the
`UIComponents()` factory at most once, and all N calls return the identical
instance (the same handle). -/
theorem c2_singleton_at_most_once (n : Nat) (g : LazyGlobals) (f : UIFactory)
    (h : 1 ≤ n) :
    (get_ui_components_iter n g f).2.2.calls ≤ f.calls + 1 ∧
    ∃ inst, (get_ui_components_iter n g f).1 = List.replicate n inst := by
  obtain ⟨m, rfl⟩ : ∃ m, n = m + 1 := ⟨n - 1, by omega⟩
  obtain ⟨_ | v⟩ := g
  · constructor
    · simp [get_ui_components_iter, get_ui_components,
        get_ui_components_iter_filled]
    · exact ⟨f.next_id, by
        simp [get_ui_components_iter, get_ui_components,
          get_ui_components_iter_filled, List.replicate]⟩
  · constructor
    · simp [get_ui_components_iter, get_ui_components,
        get_ui_components_iter_filled]
    · exact ⟨v, by
        simp [get_ui_components_iter, get_ui_components,
          get_ui_components_iter_filled, List.replicate]⟩

/-- C2 witness: three calls starting from the uninitialized global and a fresh
factory run the factory at most once and return one identical instance. -/
theorem c2_singleton_at_most_once_witness :
    (get_ui_components_iter 3 ⟨none⟩ (UIFactory.mk 0 0)).2.2.calls
        ≤ (UIFactory.mk 0 0).calls + 1 ∧
    ∃ inst, (get_ui_components_iter 3 ⟨none⟩ (UIFactory.mk 0 0)).1
        = List.replicate 3 inst :=
  c2_singleton_at_most_once 3 ⟨none⟩ (UIFactory.mk 0 0) (by decide)

/-! ## C3: idempotent, merge-on-missing-key session initialization -/

/-- C3: `initialize_session_state` never overwrites a key already present in
the session state, for every defaults mapping; in particular, after a field is
set, re-running initialization leaves that field unchanged. -/
theorem c3_session_init_idempotent {α : Type} (defaults : List (String × α))
    (s : SessionState α) (k : String) (v : α) (h : scontains s k = true) :
    sget (initialize_session_state defaults s) k = sget s k ∧
    sget (initialize_session_state defaults (sset s k v)) k = some v := by
  constructor
  · unfold initialize_session_state
    by_cases hI : scontains s "initialized" = true
    · simp [hI]
    · simp only [Bool.not_eq_true] at hI
      simp only [hI]
      simpa using apply_defaults_preserves defaults s k h
  · unfold initialize_session_state
    have hself : sget (sset s k v) k = some v := sget_sset_self s k v
    have hcontains : scontains (sset s k v) k = true := by
      simp [scontains, hself]
    by_cases hI : scontains (sset s k v) "initialized" = true
    · simp [hI, hself]
    · simp only [Bool.not_eq_true] at hI
      simp only [hI]
      simpa [hself] using
        apply_defaults_preserves defaults (sset s k v) k hcontains

/-- C3 witness: a session that already carries `resume_text` keeps it through
initialization with the application defaults, also after it was overwritten. -/
theorem c3_session_init_idempotent_witness :
    sget (initialize_session_state get_default_session_state
        [("resume_text", Value.vs "draft")]) "resume_text"
      = sget [("resume_text", Value.vs "draft")] "resume_text" ∧
    sget (initialize_session_state get_default_session_state
        (sset [("resume_text", Value.vs "draft")] "resume_text" (Value.vs "final")))
        "resume_text"
      = some (Value.vs "final") :=
  c3_session_init_idempotent get_default_session_state
    [("resume_text", Value.vs "draft")] "resume_text" (Value.vs "final")
    (by decide)

/-! ## C4: health-check severity classification -/

/-- C4: `check_application_health` reports `healthy = False` exactly when a
required import fails, in which case the failure is recorded in `issues`;
resource-pressure findings live only in `warnings`, so the snapshot is healthy
whenever the required imports succeed, regardless of memory or disk
pressure. -/
theorem c4_health_severity (e : HealthEnv) :
    (check_application_health e).healthy = e.required_import_error.isNone ∧
    (check_application_health e).issues =
      (match e.required_import_error with
       | none => []
       | some msg => ["Missing required dependency: " ++ msg]) := by
  cases h : e.required_import_error <;> simp [check_application_health, h]

/-! ## C5: the fallback decorator loses the configured error value -/

/-- C5 (code bug at the failing input): when the enhanced error-handling
module is unavailable, the fallback `handle_errors` decorator returns `None`
for a decorated function that raises, even though the decoration site of
`check_application_health` configured
`return_on_error={'healthy': False, 'issues': ['Health check failed']}`;
the caller therefore receives `None` rather than a snapshot-shaped value. -/
theorem c5_fallback_decorator_drops_return_on_error :
    handle_errors "application_health_check" "high"
        (some health_check_return_on_error)
        (fun _ : Unit =>
          (Except.error "health check raised" : Except String HealthStatus)) ()
      = none ∧
    (none : Option HealthStatus) ≠ some health_check_return_on_error := by
  exact ⟨rfl, by simp⟩

/-! ## C6: bulk-processing progress -/

/-- C6: for every non-empty list of uploaded files, the reported progress
sequence `(i+1)/n` for `i = 0 .. n-1` followed by the final `progress(1.0)`
update never decreases between successive updates, and the final reported
value is exactly 1. -/
theorem c6_bulk_progress_monotone (n : Nat) (h : 1 ≤ n) :
    (bulk_progress_updates n).Chain' (· ≤ ·) ∧
    (bulk_progress_updates n).getLast? = some 1 := by
  have hn : (0 : ℚ) < (n : ℚ) := by exact_mod_cast h
  constructor
  · apply List.Pairwise.chain'
    unfold bulk_progress_updates
    rw [List.pairwise_append]
    refine ⟨?_, ?_, ?_⟩
    · refine List.Pairwise.map _ ?_ (List.pairwise_lt_range n)
      intro a b hab
      refine div_le_div_of_nonneg_right ?_ hn.le
      have h2 : (a : ℚ) ≤ (b : ℚ) := by exact_mod_cast hab.le
      linarith
    · simp
    · intro x hx y hy
      simp only [List.mem_singleton] at hy
      subst hy
      simp only [List.mem_map, List.mem_range] at hx
      obtain ⟨i, hi, rfl⟩ := hx
      rw [div_le_one hn]
      have h3 : (i : ℚ) + 1 ≤ (n : ℚ) := by exact_mod_cast Nat.succ_le_of_lt hi
      linarith
  · exact List.getLast?_concat _

/-- C6 witness: with three uploaded files the reported sequence is
non-decreasing and ends at exactly 1. -/
theorem c6_bulk_progress_monotone_witness :
    (bulk_progress_updates 3).Chain' (· ≤ ·) ∧
    (bulk_progress_updates 3).getLast? = some 1 :=
  c6_bulk_progress_monotone 3 (by decide)

/-! ## C7: TTL caching of the health check -/

/-- C7 (amended): under the `st.cache_data(ttl=300)` wrapper, a call within
the 300-second TTL window returns the identical cached snapshot without
re-running the sub-checks, and a call at or past TTL expiry recomputes the
snapshot.  (The Python function takes no `forceRefresh` parameter, so no
cache bypass exists through its signature.) -/
theorem c7_ttl_caching (v : HealthStatus) (t now : Nat) (e : HealthEnv) :
    (now - t < 300 →
      cached_check_application_health ⟨some (v, t)⟩ now e
        = (v, ⟨some (v, t)⟩, false)) ∧
    (300 ≤ now - t →
      cached_check_application_health ⟨some (v, t)⟩ now e
        = (check_application_health e,
           ⟨some (check_application_health e, now)⟩, true)) := by
  constructor
  · intro h
    simp [cached_check_application_health, h]
  · intro h
    simp [cached_check_application_health, Nat.not_lt.mpr h]

/-- C7 witness: a snapshot computed at time 0 is returned unchanged at time 10
without re-running the sub-checks, and is recomputed at time 400. -/
theorem c7_ttl_caching_witness :
    (cached_check_application_health ⟨some (stale_snapshot, 0)⟩ 10
        env_memory_pressure
      = (stale_snapshot, ⟨some (stale_snapshot, 0)⟩, false)) ∧
    (cached_check_application_health ⟨some (stale_snapshot, 0)⟩ 400
        env_memory_pressure
      = (check_application_health env_memory_pressure,
         ⟨some (check_application_health env_memory_pressure, 400)⟩, true)) :=
  ⟨(c7_ttl_caching stale_snapshot 0 10 env_memory_pressure).1 (by decide),
   (c7_ttl_caching stale_snapshot 0 400 env_memory_pressure).2 (by decide)⟩

/-- C7 counterexample to the claim as stated: within the TTL window the cached
snapshot is returned even when the environment has changed so that a fresh run
would report a missing dependency — the operation offers no input that
bypasses the cache (the Python function takes no arguments at all). -/
theorem c7_no_force_refresh_counterexample :
    (cached_check_application_health ⟨some (stale_snapshot, 0)⟩ 10
        env_missing_docx).1 = stale_snapshot ∧
    check_application_health env_missing_docx ≠ stale_snapshot := by
  decide

/-! ## C8: resolution result when no tier is available -/

/-- C8 (amended): `get_cached_requirements_manager` returns `None` — not a
no-op instance — exactly when the `RequirementsManager` implementation cannot
be imported, and its caller `render_requirements_tab` does null-check the
result, rendering an error and halting the tab in exactly that case. -/
theorem c8_no_tier_yields_none (e : DbEnv) :
    (get_cached_requirements_manager e = none ↔
      e.requirements_import_ok = false) ∧
    (render_requirements_tab e = .unavailableError ↔
      get_cached_requirements_manager e = none) := by
  revert e
  decide

/-- C8 counterexample to the claim as stated: in the concrete environment
where neither the database tier nor the JSON tier is available, resolution
returns `None` rather than a no-op instance, and the caller takes its
null-check error path. -/
theorem c8_no_tier_counterexample :
    get_cached_requirements_manager dbenv_nothing_available = none ∧
    render_requirements_tab dbenv_nothing_available = .unavailableError := by
  decide

/-! ## C9: the real health check only runs in debug mode -/

/-- C9: whenever `debug_mode` is absent from the session state or set to
`False`, `main` does not call `check_application_health`, uses the constant
healthy verdict, and always proceeds into the main flow — even when required
dependencies are missing. -/
theorem c9_no_health_check_without_debug (session : SessionState Value)
    (e : HealthEnv)
    (h : sget session "debug_mode" = none ∨
         sget session "debug_mode" = some (Value.vb false)) :
    main_health_phase session e
      = ({ healthy := true, issues := [], warnings := [] }, false) ∧
    main_proceeds_past_health session e = true := by
  have hd : debug_mode_enabled session = false := by
    unfold debug_mode_enabled
    rcases h with h | h <;> rw [h] <;> rfl
  unfold main_proceeds_past_health main_health_phase
  rw [hd]
  simp

/-- C9 witness: with an empty session state and `streamlit` itself missing,
`main` still skips the real health check and enters the main flow. -/
theorem c9_no_health_check_without_debug_witness :
    main_health_phase ([] : SessionState Value) env_missing_streamlit
      = ({ healthy := true, issues := [], warnings := [] }, false) ∧
    main_proceeds_past_health ([] : SessionState Value) env_missing_streamlit
      = true :=
  c9_no_health_check_without_debug [] env_missing_streamlit (Or.inl rfl)

/-! ## C10: the async-retry action always reports async mode active -/

/-- C10: on the fallback path (async module absent) the 'Retry Async Init'
action stores `True` in `async_initialized` for every prior session state, so
the UI subsequently reports high-performance/async mode as active. -/
theorem c10_retry_async_init_always_active (session : SessionState Value) :
    sget (retry_async_init session) "async_initialized"
      = some (Value.vb true) ∧
    async_mode_active (retry_async_init session) = true := by
  have h : sget (retry_async_init session) "async_initialized"
      = some (Value.vb true) :=
    sget_sset_self session "async_initialized" (Value.vb true)
  refine ⟨h, ?_⟩
  unfold async_mode_active
  rw [h]
  rfl

end App
